import Mathlib

/- Verification of the concurrency core of a web backend driving long-running
AI-agent turns: response buffering, stream relays, execution-handle pooling
and bounded headless execution.  Shallow embedding of:
  * app/services/response_buffer.py    (ResponseBuffer, ResponseBufferManager)
  * app/services/copilot_service.py    (SessionClient pool, send_message_background)
  * app/services/task_runner_service.py (TaskRunnerService)
  * app/routers/sessions.py            (run_agent, SSE relay generators)
Conventions: wall-clock time is an explicit natural-number argument standing
for datetime.now() / time.time(); opaque dict payloads (steps, usage
snapshots, notification data) are modelled as strings; asyncio suspension and
exceptions are modelled by explicit outcome values threaded through the
control flow of the embedded functions. -/

namespace Spec2Proof

/- Embedding of response_buffer.py: ResponseStatus (lines 19-22). -/
inductive ResponseStatus
  | running
  | completed
  | error
deriving DecidableEq, Repr

/- Embedding of the dict literal appended by add_notification (line 60). -/
structure BufferNotif where
  event : String
  data : String
deriving DecidableEq, Repr

/- Embedding of the ResponseBuffer dataclass (response_buffer.py lines 25-41).
The asyncio.Event is modelled by its boolean set/clear state. -/
structure ResponseBuffer where
  session_id : String
  status : ResponseStatus
  chunks : List String
  steps : List String
  usage_info : Option String
  notifications : List BufferNotif
  error : Option String
  started_at : Nat
  completed_at : Option Nat
  updated_session_name : Option String
  new_data_event : Bool
deriving DecidableEq, Repr

/- Dataclass construction with field defaults (status RUNNING, empty lists,
started_at = now, event unset). -/
def mkResponseBuffer (session_id : String) (now : Nat) : ResponseBuffer :=
  { session_id := session_id
    status := ResponseStatus.running
    chunks := []
    steps := []
    usage_info := none
    notifications := []
    error := none
    started_at := now
    completed_at := none
    updated_session_name := none
    new_data_event := false }

/- add_chunk (lines 43-46): append the chunk and set the event. -/
def ResponseBuffer.add_chunk (b : ResponseBuffer) (content : String) : ResponseBuffer :=
  { b with chunks := b.chunks ++ [content], new_data_event := true }

/- add_step (lines 48-51). -/
def ResponseBuffer.add_step (b : ResponseBuffer) (step : String) : ResponseBuffer :=
  { b with steps := b.steps ++ [step], new_data_event := true }

/- add_usage_info (lines 53-56): overwrite, not append. -/
def ResponseBuffer.add_usage_info (b : ResponseBuffer) (usage : String) : ResponseBuffer :=
  { b with usage_info := some usage, new_data_event := true }

/- add_notification (lines 58-61); `data or \x7b\x7d` is modelled by
Option.getD with "" standing for the empty dict. -/
def ResponseBuffer.add_notification (b : ResponseBuffer) (event : String)
    (data : Option String) : ResponseBuffer :=
  { b with notifications := b.notifications ++ [{ event := event, data := data.getD "" }]
           new_data_event := true }

/- complete (lines 63-68): unconditionally sets COMPLETED, completed_at := now,
and sets the event.  There is no check of the current status. -/
def ResponseBuffer.complete (b : ResponseBuffer) (now : Nat) : ResponseBuffer :=
  { b with status := ResponseStatus.completed
           completed_at := some now
           new_data_event := true }

/- fail (lines 70-76): unconditionally sets ERROR, error := reason,
completed_at := now, and sets the event. -/
def ResponseBuffer.fail (b : ResponseBuffer) (err : String) (now : Nat) : ResponseBuffer :=
  { b with status := ResponseStatus.error
           error := some err
           completed_at := some now
           new_data_event := true }

/- get_full_content (lines 78-80): "".join(self.chunks). -/
def ResponseBuffer.get_full_content (b : ResponseBuffer) : String :=
  String.join b.chunks

/- is_stale (lines 82-89): false while RUNNING or without completed_at,
else age strictly greater than max_age_seconds. -/
def ResponseBuffer.is_stale (b : ResponseBuffer) (now : Nat) (max_age_seconds : Nat) : Bool :=
  if b.status = ResponseStatus.running then false
  else
    match b.completed_at with
    | none => false
    | some c => decide (now - c > max_age_seconds)

/- One producer-side mutation of a buffer, used to talk about what happens
while a consumer is (or is not yet) inside wait_for_update. -/
inductive Mutation
  | addChunk (content : String)
  | addStep (step : String)
  | addUsage (usage : String)
  | addNotif (event : String) (data : Option String)
  | complete (now : Nat)
  | fail (err : String) (now : Nat)
deriving DecidableEq, Repr

def ResponseBuffer.applyMutation (b : ResponseBuffer) : Mutation → ResponseBuffer
  | Mutation.addChunk c => b.add_chunk c
  | Mutation.addStep s => b.add_step s
  | Mutation.addUsage u => b.add_usage_info u
  | Mutation.addNotif e d => b.add_notification e d
  | Mutation.complete t => b.complete t
  | Mutation.fail e t => b.fail e t

def ResponseBuffer.applyMutations (b : ResponseBuffer) (ms : List Mutation) : ResponseBuffer :=
  ms.foldl ResponseBuffer.applyMutation b

/- wait_for_update (lines 91-98).  The method first CLEARS the event, then
awaits event.wait() under a timeout, returning True when the event gets set
before the timeout and False on TimeoutError.  `during` is the list of
producer mutations that occur between the clear() and the expiry of the
timeout; the returned boolean is the state of the event after them, which is
exactly when wait() woke up. -/
def ResponseBuffer.wait_for_update (b : ResponseBuffer) (during : List Mutation) :
    ResponseBuffer × Bool :=
  let cleared := { b with new_data_event := false }
  let final := cleared.applyMutations during
  (final, final.new_data_event)

/- Embedding of the asyncio.Task references held in ResponseBufferManager
_tasks: `done` mirrors task.done(), `cancelled_flag` records that
task.cancel() was invoked on it. -/
structure TaskRef where
  id : Nat
  done : Bool
  cancelled_flag : Bool
deriving DecidableEq, Repr

/- Embedding of ResponseBufferManager state (response_buffer.py lines
101-109).  The two dicts are modelled as maps from session id to an optional
entry; the asyncio.Lock serialises the map mutations, so each method is a
single atomic state transformer here. -/
structure ResponseBufferManager where
  buffers : String → Option ResponseBuffer
  tasks : String → Option TaskRef
  buffer_ttl_seconds : Nat

def ResponseBufferManager.init : ResponseBufferManager :=
  { buffers := fun _ => none, tasks := fun _ => none, buffer_ttl_seconds := 300 }

/- Result of create_buffer: the new manager state, the returned fresh buffer,
and the previous task (if any) on which .cancel() was invoked. -/
structure CreateBufferResult where
  manager : ResponseBufferManager
  buffer : ResponseBuffer
  cancelled_previous : Option TaskRef

/- create_buffer (lines 135-150): under the lock, cancel and drop any
existing task for the session, drop any existing buffer, install and return
a fresh RUNNING buffer. -/
def ResponseBufferManager.create_buffer (m : ResponseBufferManager) (session_id : String)
    (now : Nat) : CreateBufferResult :=
  let fresh := mkResponseBuffer session_id now
  { manager :=
      { m with
        buffers := fun k => if k = session_id then some fresh else m.buffers k
        tasks := fun k => if k = session_id then none else m.tasks k }
    buffer := fresh
    cancelled_previous := m.tasks session_id }

/- register_task (lines 152-154). -/
def ResponseBufferManager.register_task (m : ResponseBufferManager) (session_id : String)
    (task : TaskRef) : ResponseBufferManager :=
  { m with tasks := fun k => if k = session_id then some task else m.tasks k }

/- remove_buffer (lines 161-167): pop the buffer and the task; cancel the
task when present and not yet done. -/
def ResponseBufferManager.remove_buffer (m : ResponseBufferManager) (session_id : String) :
    ResponseBufferManager × Option TaskRef :=
  let popped := m.tasks session_id
  let cancelled :=
    match popped with
    | some t => if t.done then none else some { t with cancelled_flag := true }
    | none => none
  ({ m with
      buffers := fun k => if k = session_id then none else m.buffers k
      tasks := fun k => if k = session_id then none else m.tasks k },
   cancelled)

/- Net effect of _cleanup_stale_buffers (lines 123-133).  Phase 1, under
the lock, collects the session ids whose buffer is_stale under the manager
TTL; the lock is then RELEASED, and phase 2 calls remove_buffer on each
collected id, popping whatever buffer and task are registered under that id
at that later time (other tasks — e.g. create_buffer for a new turn — may
have replaced the entry in between).  `m_collect` is the registry state when
the ids were collected, `m_remove` the state when the removals run; entries
whose id was not collected keep their remove-time value. -/
def cleanup_stale_two_phase (m_collect m_remove : ResponseBufferManager) (now : Nat) :
    ResponseBufferManager :=
  { buffer_ttl_seconds := m_remove.buffer_ttl_seconds
    buffers := fun k =>
      match m_collect.buffers k with
      | some b =>
          if b.is_stale now m_collect.buffer_ttl_seconds then none else m_remove.buffers k
      | none => m_remove.buffers k
    tasks := fun k =>
      match m_collect.buffers k with
      | some b =>
          if b.is_stale now m_collect.buffer_ttl_seconds then none else m_remove.tasks k
      | none => m_remove.tasks k }

/- has_active_response (lines 169-172). -/
def ResponseBufferManager.has_active_response (m : ResponseBufferManager)
    (session_id : String) : Bool :=
  match m.buffers session_id with
  | some b => b.status = ResponseStatus.running
  | none => false

/- Embedding of the event dicts yielded by CopilotService.send_message and
consumed by send_message_background (copilot_service.py lines 835-849).
Payload dicts are opaque strings; `other` stands for any event kind the
consumer ignores. -/
inductive StreamEvt
  | delta (content : String)
  | step (data : String)
  | usage_info (data : String)
  | pending_messages (data : String)
  | turn_done (data : String)
  | other
deriving DecidableEq, Repr

/- Body of the async-for loop of send_message_background (lines 835-849):
deltas with non-empty content are appended as chunks, steps appended, usage
overwritten, pending_messages / turn_done forwarded as notifications. -/
def applyStreamEvt (b : ResponseBuffer) : StreamEvt → ResponseBuffer
  | StreamEvt.delta content => if content = "" then b else b.add_chunk content
  | StreamEvt.step data => b.add_step data
  | StreamEvt.usage_info data => b.add_usage_info data
  | StreamEvt.pending_messages data => b.add_notification "pending_messages" (some data)
  | StreamEvt.turn_done data => b.add_notification "turn_done" (some data)
  | StreamEvt.other => b

/- How the event stream driving one background send terminates: it either
finishes normally, or asyncio.CancelledError is raised at the suspension
point after k events were consumed, or some other exception with message
`msg` is raised after k events. -/
inductive StreamEnd
  | finished
  | cancelledAfter (k : Nat)
  | raisedAfter (msg : String) (k : Nat)
deriving DecidableEq, Repr

/- What a task raises to (or returns to) its awaiter. -/
inductive TaskEnd
  | returned
  | cancelled
  | raised (msg : String)
deriving DecidableEq, Repr

/- Observable result of one background run: the final buffer, the arguments
of the buffer.fail() calls made (in order), the number of buffer.complete()
calls made, and what the coroutine propagates to its owner. -/
structure RunnerResult where
  buffer : ResponseBuffer
  fail_calls : List String
  complete_calls : Nat
  outcome : TaskEnd
deriving Repr

/- Embedding of CopilotService.send_message_background (copilot_service.py
lines 793-863).  On normal exhaustion of the stream it does NOT call
buffer.complete() (comment at lines 859-862).  On CancelledError it calls
buffer.fail("Task was cancelled") and re-raises (lines 850-853); on any
other exception it calls buffer.fail(str(e)) and re-raises (lines 854-857). -/
def send_message_background (b : ResponseBuffer) (evts : List StreamEvt)
    (ending : StreamEnd) (now : Nat) : RunnerResult :=
  match ending with
  | StreamEnd.finished =>
      { buffer := evts.foldl applyStreamEvt b
        fail_calls := []
        complete_calls := 0
        outcome := TaskEnd.returned }
  | StreamEnd.cancelledAfter k =>
      let sofar := (evts.take k).foldl applyStreamEvt b
      { buffer := sofar.fail "Task was cancelled" now
        fail_calls := ["Task was cancelled"]
        complete_calls := 0
        outcome := TaskEnd.cancelled }
  | StreamEnd.raisedAfter msg k =>
      let sofar := (evts.take k).foldl applyStreamEvt b
      { buffer := sofar.fail msg now
        fail_calls := [msg]
        complete_calls := 0
        outcome := TaskEnd.raised msg }

/- Embedding of the run_agent coroutine defined inside send_message
(app/routers/sessions.py lines 315-383).  It awaits
send_message_background; on normal return it performs the auto-naming
post-processing (modelled by the optional `auto_name` it derives) and ONLY
THEN calls buffer.complete().  `except asyncio.CancelledError` calls
buffer.fail("Task was cancelled") again and does not re-raise (lines
377-380); `except Exception` calls buffer.fail(str(e)) again and does not
re-raise (lines 381-383) — the wrapper's docstring: exceptions are logged
and don't propagate. -/
def run_agent (b : ResponseBuffer) (evts : List StreamEvt) (ending : StreamEnd)
    (now_inner now_outer : Nat) (auto_name : Option String) : RunnerResult :=
  let r := send_message_background b evts ending now_inner
  match r.outcome with
  | TaskEnd.returned =>
      let named :=
        match auto_name with
        | some n => { r.buffer with updated_session_name := some n }
        | none => r.buffer
      { buffer := named.complete now_outer
        fail_calls := r.fail_calls
        complete_calls := r.complete_calls + 1
        outcome := TaskEnd.returned }
  | TaskEnd.cancelled =>
      { buffer := r.buffer.fail "Task was cancelled" now_outer
        fail_calls := r.fail_calls ++ ["Task was cancelled"]
        complete_calls := r.complete_calls
        outcome := TaskEnd.returned }
  | TaskEnd.raised msg =>
      { buffer := r.buffer.fail msg now_outer
        fail_calls := r.fail_calls ++ [msg]
        complete_calls := r.complete_calls
        outcome := TaskEnd.returned }

/- Embedding of TaskRunStatus (models, PENDING..ABORTED). -/
inductive TaskRunStatus
  | pending
  | running
  | completed
  | failed
  | timed_out
  | aborted
deriving DecidableEq, Repr

/- Embedding of the TaskRun record fields that task_runner_service.py reads
and writes; the remaining metadata fields (agent ids, prompt, timestamps)
play no role in the claims and are carried by `id` alone. -/
structure TaskRun where
  id : String
  status : TaskRunStatus
  error : Option String
  output : Option String
  token_usage : Option String
deriving DecidableEq, Repr

/- submit_run (task_runner_service.py lines 41-65): builds a PENDING TaskRun,
saves it and schedules _execute_run, returning the record immediately. -/
def submit_run (run_id : String) : TaskRun :=
  { id := run_id, status := TaskRunStatus.pending, error := none, output := none
    token_usage := none }

/- How the awaited send under asyncio.wait_for ends, as observed by
_execute_run's try/except chain (lines 124-169): normal return before the
deadline, asyncio.TimeoutError (wait_for cancelled the inner task),
asyncio.CancelledError (the run itself was aborted), or another exception. -/
inductive ExecEnd
  | returnedInTime
  | timedOut
  | wasCancelled
  | raisedWith (msg : String)
deriving DecidableEq, Repr

/- Embedding of the result-collection part of TaskRunnerService._execute_run
(lines 124-169), given the buffer state `b` at the moment the awaited call
ended (or was interrupted) and the way it ended.  On normal return the
caller itself calls buffer.complete() (line 142, per the comment that
send_message_background does not) and then branches on the buffer status;
on TimeoutError the run becomes TIMED_OUT with the partial buffer content
attached as output (lines 155-160); on CancelledError it becomes ABORTED;
on any other exception FAILED — in every branch output is
buffer.get_full_content(). -/
def execute_run_collect (run : TaskRun) (b : ResponseBuffer) (ending : ExecEnd)
    (max_runtime_minutes : Nat) (now : Nat) : TaskRun :=
  match ending with
  | ExecEnd.returnedInTime =>
      let done := b.complete now
      if done.status = ResponseStatus.completed then
        { run with status := TaskRunStatus.completed
                   output := some done.get_full_content
                   token_usage := done.usage_info }
      else
        { run with status := TaskRunStatus.failed
                   error := some (done.error.getD "Unknown error")
                   output := some done.get_full_content }
  | ExecEnd.timedOut =>
      { run with status := TaskRunStatus.timed_out
                 error := some ("Timed out after " ++ toString max_runtime_minutes
                   ++ " minutes")
                 output := some b.get_full_content }
  | ExecEnd.wasCancelled =>
      { run with status := TaskRunStatus.aborted
                 error := some "Aborted"
                 output := some b.get_full_content }
  | ExecEnd.raisedWith msg =>
      { run with status := TaskRunStatus.failed
                 error := some msg
                 output := some b.get_full_content }

/- Composition for the timeout path: asyncio.wait_for cancels the awaited
send_message_background task, whose CancelledError handler marks the buffer
failed (preserving its chunks) and re-raises; wait_for then raises
TimeoutError in _execute_run, which records the run as TIMED_OUT with the
buffer's accumulated content.  `k` is the number of stream events the inner
task had consumed when the deadline hit. -/
def execute_run_on_timeout (run : TaskRun) (b0 : ResponseBuffer) (evts : List StreamEvt)
    (k : Nat) (t_cancel : Nat) (max_runtime_minutes : Nat) (now : Nat) : TaskRun :=
  let inner := send_message_background b0 evts (StreamEnd.cancelledAfter k) t_cancel
  execute_run_collect run inner.buffer ExecEnd.timedOut max_runtime_minutes now

/- State machine for the semaphore-bounded execution of submitted runs
(task_runner_service.py lines 30-39 and 67-182).  asyncio.Semaphore(n) is a
counter of available slots; a run's status becomes RUNNING only inside
`async with self._semaphore` (line 75).  The statements from the RUNNING
assignment through the awaited session creation (lines 75-94) sit inside the
with-block but BEFORE the try at line 96: an exception raised there escapes
the coroutine, the with-exit releases the slot, and the record stays RUNNING
with no handler ever assigning a terminal status.  Inside the try, every
exit path (return, TimeoutError, CancelledError, Exception) records a
terminal status before the with-block is exited.  `holds` marks a task
currently inside the with-block. -/
structure SubRun where
  status : TaskRunStatus
  holds : Bool
deriving DecidableEq, Repr

structure SubmitterState where
  avail : Nat
  runs : Multiset SubRun

def SubmitterState.init (n : Nat) : SubmitterState :=
  { avail := n, runs := 0 }

def TaskRunStatus.isTerminal : TaskRunStatus → Bool
  | TaskRunStatus.pending => false
  | TaskRunStatus.running => false
  | _ => true

/- One scheduler step of the task runner.  `crash` is the pre-try failure
path of _execute_run: an exception between line 75 (status := RUNNING) and
line 96 (try:) propagates out of the with-block, releasing the slot while
the record is left in RUNNING status forever. -/
inductive SubStep : SubmitterState → SubmitterState → Prop
  | submit (s : SubmitterState) :
      SubStep s { s with runs := { status := TaskRunStatus.pending, holds := false } ::ₘ s.runs }
  | acquire (avail : Nat) (rest : Multiset SubRun) :
      SubStep { avail := avail + 1, runs := { status := TaskRunStatus.pending, holds := false } ::ₘ rest }
        { avail := avail, runs := { status := TaskRunStatus.running, holds := true } ::ₘ rest }
  | crash (s : SubmitterState) (r : SubRun) (rest : Multiset SubRun)
      (hr : s.runs = r ::ₘ rest) (hh : r.holds = true)
      (hs : r.status = TaskRunStatus.running) :
      SubStep s { avail := s.avail + 1, runs := { r with holds := false } ::ₘ rest }
  | finish (s : SubmitterState) (r : SubRun) (t : TaskRunStatus) (rest : Multiset SubRun)
      (hr : s.runs = r ::ₘ rest) (ht : t.isTerminal = true) :
      SubStep s { s with runs := { r with status := t } ::ₘ rest }
  | release (s : SubmitterState) (r : SubRun) (rest : Multiset SubRun)
      (hr : s.runs = r ::ₘ rest) (hh : r.holds = true) (ht : r.status.isTerminal = true) :
      SubStep s { avail := s.avail + 1, runs := { r with holds := false } ::ₘ rest }

def SubReachable (n : Nat) : SubmitterState → Prop :=
  Relation.ReflTransGen SubStep (SubmitterState.init n)

def runningCount (runs : Multiset SubRun) : Nat :=
  Multiset.countP (fun r => r.status = TaskRunStatus.running) runs

def holdsCount (runs : Multiset SubRun) : Nat :=
  Multiset.countP (fun r => r.holds = true) runs

/- Submissions that are RUNNING while still inside the semaphore block. -/
def runningHoldingCount (runs : Multiset SubRun) : Nat :=
  Multiset.countP (fun r => r.status = TaskRunStatus.running ∧ r.holds = true) runs

/- Embedding of SessionClient (copilot_service.py lines 86-133).
`bound_config` is a ghost field recording the full per-turn configuration
requested when the client was created; the code itself stores and compares
only the working directory (`cwd`), which always equals bound_config.cwd. -/
structure SessionConfig where
  cwd : String
  capabilities : List String
deriving DecidableEq, Repr

structure SessionClient where
  session_id : String
  cwd : String
  started : Bool
  has_session : Bool
  last_activity : Nat
  bound_config : SessionConfig
deriving DecidableEq, Repr

def mkSessionClient (session_id : String) (cfg : SessionConfig) (now : Nat) : SessionClient :=
  { session_id := session_id, cwd := cfg.cwd, started := false, has_session := false
    last_activity := now, bound_config := cfg }

/- SessionClient.stop (lines 110-129): destroys the SDK session and stops the
client; both teardown steps catch and log exceptions, so stop never raises —
modelled by a total function. -/
def SessionClient.stop (c : SessionClient) : SessionClient :=
  { c with started := false, has_session := false }

/- SessionClient.touch (lines 131-133). -/
def SessionClient.touch (c : SessionClient) (now : Nat) : SessionClient :=
  { c with last_activity := now }

/- Client-state effect of the on_event callback in send_message
(copilot_service.py lines 574-578): every observed event calls
client.touch() so the idle sweep never reaps a session mid-turn. -/
def on_event_touch (c : SessionClient) (now : Nat) : SessionClient :=
  c.touch now

/- Per-session client map of CopilotService (line 239), protected by the
service lock. -/
structure CopilotServiceState where
  session_clients : String → Option SessionClient

structure GetClientResult where
  state : CopilotServiceState
  client : SessionClient
  stopped_previous : Option SessionClient

/- Embedding of CopilotService.get_session_client (lines 395-410) as invoked
once per turn by send_message with the turn's requested configuration: only
`cwd` is consulted; when an existing client's cwd differs it is stopped and
replaced, otherwise the existing client is returned untouched.  The
capability selections in `cfg` are passed on to
SessionClient.get_or_create_session, which reuses any existing SDK session
without comparing them (lines 207-211). -/
def get_session_client (st : CopilotServiceState) (session_id : String)
    (cfg : SessionConfig) (now : Nat) : GetClientResult :=
  match st.session_clients session_id with
  | some client =>
      if client.cwd ≠ cfg.cwd then
        let fresh := mkSessionClient session_id cfg now
        { state := { session_clients := fun k =>
            if k = session_id then some fresh else st.session_clients k }
          client := fresh
          stopped_previous := some client.stop }
      else
        { state := st, client := client, stopped_previous := none }
  | none =>
      let fresh := mkSessionClient session_id cfg now
      { state := { session_clients := fun k =>
          if k = session_id then some fresh else st.session_clients k }
        client := fresh
        stopped_previous := none }

/- Idle threshold and sweep interval of CopilotService (lines 243 and 277). -/
def idle_timeout_seconds : Nat := 600

def idle_sweep_interval_seconds : Nat := 60

/- Net effect of _cleanup_idle_sessions (lines 280-292).  Phase 1, under the
lock, collects the ids whose client's last_activity is more than `timeout`
seconds in the past; the lock is then RELEASED, and phase 2 calls
destroy_session_client on each collected id, popping and stopping whatever
client is registered under that id at that later time (another task may have
replaced the client in between, e.g. a cwd change through
get_session_client).  `st_collect` is the client map at collection time,
`st_destroy` the map when the destroys run; ids not collected keep their
destroy-time value. -/
def cleanup_idle_two_phase (st_collect st_destroy : CopilotServiceState)
    (now : Nat) (timeout : Nat) : CopilotServiceState :=
  { session_clients := fun k =>
      match st_collect.session_clients k with
      | some c =>
          if now - c.last_activity > timeout then none else st_destroy.session_clients k
      | none => st_destroy.session_clients k }

/- Embedding of the SSE events framed by the resume_response_stream relay
generator (app/routers/sessions.py lines 489-530): delta events carry a
chunk, step events a step payload, and the two possible terminal frames are
done (with the content length) and error (with the buffer's error, which may
be null). -/
inductive SSEEvent
  | delta (content : String)
  | step (data : String)
  | done (content_length : Nat)
  | error (msg : Option String)
deriving DecidableEq, Repr

def SSEEvent.isTerminal : SSEEvent → Bool
  | SSEEvent.done _ => true
  | SSEEvent.error _ => true
  | _ => false

def SSEEvent.deltaContent : SSEEvent → Option String
  | SSEEvent.delta c => some c
  | _ => none

def SSEEvent.stepData : SSEEvent → Option String
  | SSEEvent.step d => some d
  | _ => none

/- The terminal frame the relay emits once it observes a non-RUNNING buffer
(lines 511-521): for COMPLETED, done when the joined content has non-blank
text and an error frame with "No response content" otherwise; for ERROR, an
error frame with the buffer's error field. -/
def terminalFrame (b : ResponseBuffer) : SSEEvent :=
  if b.status = ResponseStatus.completed then
    if b.get_full_content.trim ≠ "" then SSEEvent.done b.get_full_content.length
    else SSEEvent.error (some "No response content")
  else SSEEvent.error b.error

/- Growth order between two observations of the same buffer: chunks and
steps are append-only, so an earlier snapshot's lists are prefixes of a
later snapshot's. -/
def BufExtends (a b : ResponseBuffer) : Prop :=
  a.chunks <+: b.chunks ∧ a.steps <+: b.steps

/- One iteration of the while-loop of resume_response_stream.generate_events
(sessions.py lines 494-521), at suspension-point granularity: the generator
suspends at every `yield`, so the buffer may advance between the chunk
drain, the step drain and the terminal-status check of the SAME pass.
`chunkView` is the buffer state when the chunk-drain condition last
evaluated (the drained chunks are exactly its chunks past the cursor —
appends during the chunk drain are still picked up because the while
condition is re-checked after each yield), `stepView` the state when the
step-drain condition last evaluated, and `statusView` the state at the
status check (no suspension separates the status check from reading
get_full_content / error for the terminal frame). -/
structure RelayPass where
  chunkView : ResponseBuffer
  stepView : ResponseBuffer
  statusView : ResponseBuffer

/- Within one pass time only moves forward: the step drain observes at least
what the chunk drain observed, and the status check at least what the step
drain observed. -/
def PassOrdered (p : RelayPass) : Prop :=
  BufExtends p.chunkView p.stepView ∧ BufExtends p.stepView p.statusView

/- A legal schedule for one relay: every pass is internally ordered, the
buffer keeps growing across passes, every pass before the last observes
RUNNING at its status check (so the loop waits and repeats), and the last
pass observes a terminal status (the turn ended). -/
def LegalSchedule : List RelayPass → Prop
  | [] => True
  | [p] => PassOrdered p ∧ p.statusView.status ≠ ResponseStatus.running
  | p :: q :: rest => PassOrdered p ∧ p.statusView.status = ResponseStatus.running
      ∧ BufExtends p.statusView q.chunkView ∧ LegalSchedule (q :: rest)

/- Frames emitted by the two drain loops of one pass: every chunk past the
chunk cursor as seen by the chunk drain, then every step past the step
cursor as seen by the step drain. -/
def passFrames (p : RelayPass) (chunks_sent steps_sent : Nat) : List SSEEvent :=
  (p.chunkView.chunks.drop chunks_sent).map SSEEvent.delta
    ++ (p.stepView.steps.drop steps_sent).map SSEEvent.step

/- The relay over the passes it executes: each pass drains both cursors from
its views, then breaks with exactly one terminal frame when its status check
observes a non-RUNNING buffer, else waits (wait_for_update with timeout, so
the loop always comes back) and runs the next pass.  The cursors carried to
the next pass are the lengths seen by this pass's drains.  A chunk appended
after the chunk drain and before a terminal status check of the same pass
(present in statusView but not chunkView) is never emitted: the chunk loop
is not re-entered once the status check breaks. -/
def relayRun : List RelayPass → Nat → Nat → List SSEEvent
  | [], _, _ => []
  | p :: rest, chunks_sent, steps_sent =>
      let out := passFrames p chunks_sent steps_sent
      if p.statusView.status = ResponseStatus.running then
        out ++ relayRun rest p.chunkView.chunks.length p.stepView.steps.length
      else
        out ++ [terminalFrame p.statusView]

/- A pass over a buffer that no longer changes (e.g. a reconnect attaching
after completion, when the producer has stopped): all three views coincide. -/
def stablePass (b : ResponseBuffer) : RelayPass :=
  { chunkView := b, stepView := b, statusView := b }

/- Concrete fixtures used to instantiate the hypothesis-bearing theorems. -/
def exampleStaleBuffer : ResponseBuffer := (mkResponseBuffer "a" 0).complete 10

def exampleStaleManager : ResponseBufferManager :=
  { buffers := fun k => if k = "a" then some exampleStaleBuffer else none
    tasks := fun _ => none
    buffer_ttl_seconds := 300 }

def exampleBoundClient : SessionClient :=
  mkSessionClient "s" { cwd := "/a", capabilities := ["toolx"] } 0

def examplePoolState : CopilotServiceState :=
  { session_clients := fun k => if k = "s" then some exampleBoundClient else none }

/- A buffer observed mid-turn with one step and no chunk yet, and the same
turn's buffer after the only chunk arrived and complete() landed. -/
def exampleStepFirstBuffer : ResponseBuffer := (mkResponseBuffer "s" 0).add_step "st"

def exampleFinishedBuffer : ResponseBuffer :=
  (exampleStepFirstBuffer.add_chunk "hi").complete 2

/- A single relay pass in which the producer appends the chunk and completes
while the relay is suspended in the step-drain yield: both drains saw the
step-only buffer, the status check sees the completed one. -/
def exampleMissPass : RelayPass :=
  { chunkView := exampleStepFirstBuffer
    stepView := exampleStepFirstBuffer
    statusView := exampleFinishedBuffer }

/- The pool state after another task, queued on the lock between the idle
sweep's two phases, replaced the idle client "s" (cwd change at time 999). -/
def exampleRefreshedState : CopilotServiceState :=
  (get_session_client examplePoolState "s" { cwd := "/b", capabilities := [] } 999).state

/- The registry state after create_buffer, queued between the buffer sweep's
two phases, installed a fresh RUNNING buffer for the collected id "a". -/
def exampleReplacedManager : ResponseBufferManager :=
  (exampleStaleManager.create_buffer "a" 999).manager

/- Invariant tying the semaphore counter to the number of tasks inside the
with-block: available slots plus held slots equal the configured limit.
(RUNNING no longer implies holding a slot: the pre-try crash path leaves a
RUNNING record with its slot released.) -/
def SubInv (n : Nat) (s : SubmitterState) : Prop :=
  s.avail + holdsCount s.runs = n

/- Trace fixtures for the semaphore bound: with limit 1, a run that crashed
before the try (slot released, record stuck RUNNING) coexists with a second
run that acquired the freed slot — two RUNNING records at once. -/
def pendingRun : SubRun := { status := TaskRunStatus.pending, holds := false }

def runningHolding : SubRun := { status := TaskRunStatus.running, holds := true }

def runningCrashed : SubRun := { status := TaskRunStatus.running, holds := false }

def overrunS1 : SubmitterState := { avail := 1, runs := pendingRun ::ₘ 0 }

def overrunS2 : SubmitterState := { avail := 0, runs := runningHolding ::ₘ 0 }

def overrunS3 : SubmitterState := { avail := 1, runs := runningCrashed ::ₘ 0 }

def overrunS4 : SubmitterState :=
  { avail := 1, runs := pendingRun ::ₘ runningCrashed ::ₘ 0 }

def exampleOverrunState : SubmitterState :=
  { avail := 0, runs := runningHolding ::ₘ runningCrashed ::ₘ 0 }

/- Helper lemmas. -/

theorem applyMutations_cons (b : ResponseBuffer) (m : Mutation) (ms : List Mutation) :
    b.applyMutations (m :: ms) = (b.applyMutation m).applyMutations ms := rfl

theorem applyMutation_sets_event (b : ResponseBuffer) (m : Mutation) :
    (b.applyMutation m).new_data_event = true := by
  cases m <;> rfl

theorem applyMutations_sets_event (ms : List Mutation) (b : ResponseBuffer) (h : ms ≠ []) :
    (b.applyMutations ms).new_data_event = true := by
  induction ms generalizing b with
  | nil => exact absurd rfl h
  | cons m rest ih =>
      rw [applyMutations_cons]
      cases rest with
      | nil => exact applyMutation_sets_event b m
      | cons m' rest' => exact ih (b.applyMutation m) (by simp)

theorem is_stale_iff (b : ResponseBuffer) (now ttl : Nat) :
    b.is_stale now ttl = true
      ↔ b.status ≠ ResponseStatus.running
        ∧ ∃ c, b.completed_at = some c ∧ now - c > ttl := by
  unfold ResponseBuffer.is_stale
  by_cases h : b.status = ResponseStatus.running
  · simp [h]
  · cases hc : b.completed_at <;> simp [h, hc]

/-- C1: the claim states that once complete() or fail() has set a terminal
status, any later complete()/fail() call leaves the first terminal status,
error and completedAt unchanged.  Counterexample: on the buffer produced by
complete() at time 1, a subsequent fail("boom") at time 2 changes the status
from COMPLETED to ERROR and overwrites error and completed_at —
response_buffer.py lines 63-76 set the fields unconditionally. -/
theorem c1_counterexample :
    ¬ ((((mkResponseBuffer "s" 0).complete 1).fail "boom" 2).status
          = ((mkResponseBuffer "s" 0).complete 1).status
        ∧ (((mkResponseBuffer "s" 0).complete 1).fail "boom" 2).completed_at
          = ((mkResponseBuffer "s" 0).complete 1).completed_at
        ∧ (((mkResponseBuffer "s" 0).complete 1).fail "boom" 2).error
          = ((mkResponseBuffer "s" 0).complete 1).error) := by
  decide

/-- C1 (amended): complete() and fail() set the terminal status, completedAt
(and, for fail, error) unconditionally; a later terminal call overwrites the
earlier terminal state, and append operations still mutate the buffer after
termination — the at-most-once discipline is left to the callers, not
enforced by ResponseBuffer. -/
theorem c1_terminal_overwrite (b : ResponseBuffer) (e : String) (t t' : Nat) (c : String) :
    ((b.complete t).fail e t').status = ResponseStatus.error
    ∧ ((b.complete t).fail e t').error = some e
    ∧ ((b.complete t).fail e t').completed_at = some t'
    ∧ ((b.fail e t).complete t').status = ResponseStatus.completed
    ∧ ((b.fail e t).complete t').completed_at = some t'
    ∧ ((b.complete t).add_chunk c).chunks = b.chunks ++ [c] :=
  ⟨rfl, rfl, rfl, rfl, rfl, rfl⟩

/-- C2: the claim states that a cancelled turn performs exactly one terminal
buffer mutation (fail called exactly once) and propagates the cancellation
to its owner.  Counterexample: for a turn cancelled before any event, the
run_agent wrapper records TWO fail("Task was cancelled") calls — one inside
send_message_background (copilot_service.py lines 850-853), which re-raises,
and one in run_agent's own CancelledError handler (sessions.py lines
377-380) — and run_agent swallows the cancellation (outcome is a normal
return, not a propagated cancellation). -/
theorem c2_counterexample :
    ¬ ((run_agent (mkResponseBuffer "s" 0) [] (StreamEnd.cancelledAfter 0) 1 2 none).fail_calls.length = 1
        ∧ (run_agent (mkResponseBuffer "s" 0) [] (StreamEnd.cancelledAfter 0) 1 2 none).outcome
            = TaskEnd.cancelled) := by
  decide

/-- C2 (amended): on cancellation the turn's buffer receives
fail("Task was cancelled") twice — once in send_message_background, which
re-raises the CancelledError, and once more in run_agent's handler, which
does not re-raise — so the buffer ends terminal with status ERROR and error
"Task was cancelled", complete() is never called, and the cancellation is
not propagated past run_agent (its owner observes a normal return). -/
theorem c2_cancellation_double_fail (b : ResponseBuffer) (evts : List StreamEvt)
    (k now_inner now_outer : Nat) (auto_name : Option String) :
    (run_agent b evts (StreamEnd.cancelledAfter k) now_inner now_outer auto_name).fail_calls
        = ["Task was cancelled", "Task was cancelled"]
    ∧ (run_agent b evts (StreamEnd.cancelledAfter k) now_inner now_outer auto_name).buffer.status
        = ResponseStatus.error
    ∧ (run_agent b evts (StreamEnd.cancelledAfter k) now_inner now_outer auto_name).buffer.error
        = some "Task was cancelled"
    ∧ (run_agent b evts (StreamEnd.cancelledAfter k) now_inner now_outer auto_name).complete_calls = 0
    ∧ (run_agent b evts (StreamEnd.cancelledAfter k) now_inner now_outer auto_name).outcome
        = TaskEnd.returned :=
  ⟨rfl, rfl, rfl, rfl, rfl⟩

/-- C3: Registry.create (ResponseBufferManager.create_buffer, response_buffer.py
lines 135-150) cancels any previously registered task for the conversation,
discards any previous buffer, and installs and returns a fresh buffer in
RUNNING status, leaving every other conversation untouched — so starting a
new turn supersedes a prior live one and at most one buffer is registered
(hence at most one RUNNING) per conversation. -/
theorem c3_create_buffer_supersedes (m : ResponseBufferManager) (sid other : String)
    (now : Nat) (h : other ≠ sid) :
    (m.create_buffer sid now).buffer = mkResponseBuffer sid now
    ∧ (m.create_buffer sid now).buffer.status = ResponseStatus.running
    ∧ (m.create_buffer sid now).manager.buffers sid = some ((m.create_buffer sid now).buffer)
    ∧ (m.create_buffer sid now).manager.tasks sid = none
    ∧ (m.create_buffer sid now).cancelled_previous = m.tasks sid
    ∧ (m.create_buffer sid now).manager.buffers other = m.buffers other
    ∧ (m.create_buffer sid now).manager.tasks other = m.tasks other := by
  refine ⟨rfl, rfl, ?_, ?_, rfl, ?_, ?_⟩ <;>
    simp [ResponseBufferManager.create_buffer, h]

theorem c3_witness :
    ("b" : String) ≠ "a"
    ∧ ((ResponseBufferManager.init.create_buffer "a" 5).buffer = mkResponseBuffer "a" 5
      ∧ (ResponseBufferManager.init.create_buffer "a" 5).buffer.status = ResponseStatus.running
      ∧ (ResponseBufferManager.init.create_buffer "a" 5).manager.buffers "a"
          = some ((ResponseBufferManager.init.create_buffer "a" 5).buffer)
      ∧ (ResponseBufferManager.init.create_buffer "a" 5).manager.tasks "a" = none
      ∧ (ResponseBufferManager.init.create_buffer "a" 5).cancelled_previous
          = ResponseBufferManager.init.tasks "a"
      ∧ (ResponseBufferManager.init.create_buffer "a" 5).manager.buffers "b"
          = ResponseBufferManager.init.buffers "b"
      ∧ (ResponseBufferManager.init.create_buffer "a" 5).manager.tasks "b"
          = ResponseBufferManager.init.tasks "b") :=
  ⟨by decide, c3_create_buffer_supersedes ResponseBufferManager.init "a" "b" 5 (by decide)⟩

/-- C5: the claim states that a producer mutation occurring before a consumer
begins waiting in wait_for_update is never missed (such a call returns True).
Counterexample: add_chunk has set the new-data event, but wait_for_update
(response_buffer.py lines 91-98) CLEARS the event before awaiting it, so
with no further mutation during the wait the call times out and returns
False — the pre-existing signal is lost. -/
theorem c5_counterexample :
    ¬ ((((mkResponseBuffer "s" 0).add_chunk "hi").wait_for_update []).2 = true) := by
  decide

/-- C5 (amended): wait_for_update first clears the new-data event and then
waits, so it returns True exactly when at least one producer mutation occurs
after the clear and before the timeout; a mutation that happened before the
call is erased by the clear and on its own leaves the call to time out with
False (consumers compensate by re-draining the buffer in a loop). -/
theorem c5_wait_only_sees_new_mutations (b : ResponseBuffer) (during : List Mutation) :
    (b.wait_for_update during).2 = !during.isEmpty := by
  cases during with
  | nil => rfl
  | cons m rest =>
      simp only [ResponseBuffer.wait_for_update, List.isEmpty, Bool.not_false]
      exact applyMutations_sets_event (m :: rest) _ (by simp)

/-- C6: the claim states that get_or_create returns the existing handle
exactly when its bound configuration (working directory plus capability
selections) equals the requested config, recreating it whenever any part
differs.  Counterexample: a handle bound to capabilities ["toolx"] is
returned unchanged (and nothing is stopped) for a request with equal cwd but
different capabilities ["tooly"] — get_session_client (copilot_service.py
lines 395-410) compares only the working directory. -/
theorem c6_counterexample :
    exampleBoundClient.bound_config ≠ { cwd := "/a", capabilities := ["tooly"] }
    ∧ (get_session_client examplePoolState "s" { cwd := "/a", capabilities := ["tooly"] } 5).client
        = exampleBoundClient
    ∧ (get_session_client examplePoolState "s" { cwd := "/a", capabilities := ["tooly"] } 5).stopped_previous
        = none := by
  refine ⟨by decide, ?_, ?_⟩ <;>
    simp [get_session_client, examplePoolState, exampleBoundClient, mkSessionClient]

/-- C6 (amended): get_session_client compares only the working directory:
when the existing client's cwd equals the requested one the existing handle
is returned untouched (capability selections are not consulted); when the
cwd differs the old handle is stopped — stop never raises, teardown errors
are logged — and a fresh handle bound to the requested configuration is
installed and returned. -/
theorem c6_cwd_only_recreate (st : CopilotServiceState) (sid : String) (cfg : SessionConfig)
    (now : Nat) (client : SessionClient) (h : st.session_clients sid = some client) :
    (client.cwd = cfg.cwd →
      (get_session_client st sid cfg now).client = client
      ∧ (get_session_client st sid cfg now).stopped_previous = none
      ∧ (get_session_client st sid cfg now).state.session_clients sid = some client)
    ∧ (client.cwd ≠ cfg.cwd →
      (get_session_client st sid cfg now).client = mkSessionClient sid cfg now
      ∧ (get_session_client st sid cfg now).stopped_previous = some client.stop
      ∧ (get_session_client st sid cfg now).state.session_clients sid
          = some (mkSessionClient sid cfg now)
      ∧ (mkSessionClient sid cfg now).bound_config = cfg) := by
  constructor
  · intro hcwd
    simp [get_session_client, h, hcwd]
  · intro hcwd
    simp [get_session_client, h, hcwd, mkSessionClient]

theorem c6_witness :
    (get_session_client examplePoolState "s" { cwd := "/b", capabilities := [] } 7).client
        = mkSessionClient "s" { cwd := "/b", capabilities := [] } 7
    ∧ (get_session_client examplePoolState "s" { cwd := "/b", capabilities := [] } 7).stopped_previous
        = some exampleBoundClient.stop
    ∧ (get_session_client examplePoolState "s" { cwd := "/b", capabilities := [] } 7).state.session_clients "s"
        = some (mkSessionClient "s" { cwd := "/b", capabilities := [] } 7)
    ∧ (mkSessionClient "s" { cwd := "/b", capabilities := [] } 7).bound_config
        = { cwd := "/b", capabilities := [] } :=
  (c6_cwd_only_recreate examplePoolState "s" { cwd := "/b", capabilities := [] } 7
      exampleBoundClient (by simp [examplePoolState])).2 (by decide)

/-- C7: when a submission's execution exceeds the wall-clock deadline,
asyncio.wait_for cancels the runner's task (modelled by the inner stream
ending in cancellation after k events), _execute_run records the submission
as TIMED_OUT (task_runner_service.py lines 155-160), and the partial buffer
content appended before the timeout is preserved and attached as the
submission's output, not discarded. -/
theorem c7_timeout_preserves_partial (run : TaskRun) (b0 : ResponseBuffer)
    (evts : List StreamEvt) (k t_cancel max_runtime_minutes now : Nat) :
    (execute_run_on_timeout run b0 evts k t_cancel max_runtime_minutes now).status
        = TaskRunStatus.timed_out
    ∧ (execute_run_on_timeout run b0 evts k t_cancel max_runtime_minutes now).error
        = some ("Timed out after " ++ toString max_runtime_minutes ++ " minutes")
    ∧ (execute_run_on_timeout run b0 evts k t_cancel max_runtime_minutes now).output
        = some ((evts.take k).foldl applyStreamEvt b0).get_full_content
    ∧ (execute_run_on_timeout run b0 evts k t_cancel max_runtime_minutes now).id = run.id :=
  ⟨rfl, rfl, rfl, rfl⟩

/-- C9: the claim states that a handle touched at least once every sweep
interval is never evicted regardless of total elapsed time.  Counterexample:
_cleanup_idle_sessions releases the lock between collecting idle ids and
destroying them (copilot_service.py lines 285-292); a client recreated for
the collected id "s" in that window (cwd change at time 999 through
get_session_client) — touched 1 second before the sweep's destroy phase,
well within the 60s sweep interval — is destroyed anyway, because
destroy_session_client pops whatever client is registered under the
collected id. -/
theorem c9_counterexample :
    exampleRefreshedState.session_clients "s"
        = some (mkSessionClient "s" { cwd := "/b", capabilities := [] } 999)
    ∧ 1000 - (mkSessionClient "s" { cwd := "/b", capabilities := [] } 999).last_activity
        ≤ idle_sweep_interval_seconds
    ∧ (cleanup_idle_two_phase examplePoolState exampleRefreshedState 1000
        idle_timeout_seconds).session_clients "s" = none := by
  refine ⟨by decide, by decide, by decide⟩

/-- C9 (amended): a handle whose last_activity is more than the idle
threshold in the past when the sweep collects is absent afterwards, and the
on_event callback refreshes last_activity via touch() on every event
(copilot_service.py lines 574-578); a handle whose activity was fresh at
collection time (within the 60s sweep interval, against the 600s threshold)
is not collected, so the sweep leaves its entry exactly as the destroy-time
state has it — but because the destroys run after the lock is released, a
handle recreated under an id that was already collected is destroyed despite
fresh activity, so freshness protects a handle only from being collected,
not from a pending destroy. -/
theorem c9_idle_sweep (st_collect st_destroy : CopilotServiceState) (sid : String)
    (c : SessionClient) (now t_touch : Nat)
    (h : st_collect.session_clients sid = some c) :
    (now - c.last_activity > idle_timeout_seconds →
      (cleanup_idle_two_phase st_collect st_destroy now
          idle_timeout_seconds).session_clients sid = none)
    ∧ (now - c.last_activity ≤ idle_sweep_interval_seconds →
      (cleanup_idle_two_phase st_collect st_destroy now
          idle_timeout_seconds).session_clients sid = st_destroy.session_clients sid)
    ∧ (on_event_touch c t_touch).last_activity = t_touch := by
  refine ⟨?_, ?_, rfl⟩
  · intro hgt
    simp [cleanup_idle_two_phase, h, hgt]
  · intro hle
    have hng : ¬ (now - c.last_activity > idle_timeout_seconds) := by
      have h60 : idle_sweep_interval_seconds ≤ idle_timeout_seconds := by decide
      omega
    simp [cleanup_idle_two_phase, h, hng]

theorem c9_witness :
    (cleanup_idle_two_phase examplePoolState examplePoolState 1000
        idle_timeout_seconds).session_clients "s" = none :=
  (c9_idle_sweep examplePoolState examplePoolState "s" exampleBoundClient 1000 42
      (by simp [examplePoolState])).1 (by decide)

/-- C10: the claim states that a buffer still in RUNNING status is never
removed by the sweep.  Counterexample: _cleanup_stale_buffers releases the
lock between collecting stale ids and removing them (response_buffer.py
lines 126-133); create_buffer, queued on the lock in that window, installs a
fresh RUNNING buffer under the collected id "a", and the sweep's
remove_buffer then pops that RUNNING buffer (and cancels its task) anyway. -/
theorem c10_counterexample :
    exampleReplacedManager.buffers "a" = some (mkResponseBuffer "a" 999)
    ∧ (mkResponseBuffer "a" 999).status = ResponseStatus.running
    ∧ (cleanup_stale_two_phase exampleStaleManager exampleReplacedManager 1000).buffers "a"
        = none := by
  refine ⟨by decide, rfl, by decide⟩

/-- C10 (amended): the sweep collects, under the lock, exactly the buffers
for which is_stale holds — status terminal (not RUNNING) and completion
timestamp more than the TTL in the past — so a buffer RUNNING at collection
time is never collected; a collected id is removed outright, and an
uncollected id keeps whatever the registry holds when the removals run.
When the registry does not change between the two phases the sweep therefore
never removes a RUNNING buffer; but a RUNNING buffer installed for a
collected id between collection and removal is removed. -/
theorem c10_cleanup_only_stale (m_collect m_remove : ResponseBufferManager) (now : Nat)
    (sid : String) (b : ResponseBuffer) (h : m_collect.buffers sid = some b) :
    ((cleanup_stale_two_phase m_collect m_remove now).buffers sid
        = if b.is_stale now m_collect.buffer_ttl_seconds then none
          else m_remove.buffers sid)
    ∧ (b.is_stale now m_collect.buffer_ttl_seconds = true
        ↔ b.status ≠ ResponseStatus.running
          ∧ ∃ c, b.completed_at = some c ∧ now - c > m_collect.buffer_ttl_seconds)
    ∧ (b.status = ResponseStatus.running →
        (cleanup_stale_two_phase m_collect m_remove now).buffers sid
          = m_remove.buffers sid)
    ∧ (b.status = ResponseStatus.running →
        (cleanup_stale_two_phase m_collect m_collect now).buffers sid = some b) := by
  have key : (cleanup_stale_two_phase m_collect m_remove now).buffers sid
      = if b.is_stale now m_collect.buffer_ttl_seconds then none
        else m_remove.buffers sid := by
    simp [cleanup_stale_two_phase, h]
  have hrunfalse : b.status = ResponseStatus.running →
      b.is_stale now m_collect.buffer_ttl_seconds = false := by
    intro hr
    simp [ResponseBuffer.is_stale, hr]
  refine ⟨key, is_stale_iff b now m_collect.buffer_ttl_seconds, ?_, ?_⟩
  · intro hr
    rw [key, hrunfalse hr]
    simp
  · intro hr
    have key2 : (cleanup_stale_two_phase m_collect m_collect now).buffers sid
        = if b.is_stale now m_collect.buffer_ttl_seconds then none
          else m_collect.buffers sid := by
      simp [cleanup_stale_two_phase, h]
    rw [key2, hrunfalse hr]
    simpa using h

theorem c10_witness :
    (cleanup_stale_two_phase exampleStaleManager exampleStaleManager 1000).buffers "a"
        = none := by
  have hkey := (c10_cleanup_only_stale exampleStaleManager exampleStaleManager 1000 "a"
    exampleStaleBuffer (by simp [exampleStaleManager])).1
  rw [hkey]
  decide

/- Relay lemmas for C4. -/

theorem terminalFrame_isTerminal (b : ResponseBuffer) :
    (terminalFrame b).isTerminal = true := by
  unfold terminalFrame
  split
  · split <;> rfl
  · rfl

theorem passFrames_no_terminal (p : RelayPass) (cs ss : Nat) :
    (passFrames p cs ss).countP SSEEvent.isTerminal = 0 := by
  rw [List.countP_eq_zero]
  intro e he
  rcases List.mem_append.mp he with h | h <;>
  · obtain ⟨x, _, rfl⟩ := List.mem_map.mp h
    simp [SSEEvent.isTerminal]

theorem filterMap_deltaContent_deltas (l : List String) :
    (l.map SSEEvent.delta).filterMap SSEEvent.deltaContent = l := by
  induction l with
  | nil => rfl
  | cons x xs ih => simp [SSEEvent.deltaContent, ih]

theorem filterMap_deltaContent_steps (l : List String) :
    (l.map SSEEvent.step).filterMap SSEEvent.deltaContent = [] := by
  induction l with
  | nil => rfl
  | cons x xs ih => simp [SSEEvent.deltaContent, ih]

theorem filterMap_stepData_deltas (l : List String) :
    (l.map SSEEvent.delta).filterMap SSEEvent.stepData = [] := by
  induction l with
  | nil => rfl
  | cons x xs ih => simp [SSEEvent.stepData, ih]

theorem filterMap_stepData_steps (l : List String) :
    (l.map SSEEvent.step).filterMap SSEEvent.stepData = l := by
  induction l with
  | nil => rfl
  | cons x xs ih => simp [SSEEvent.stepData, ih]

theorem terminalFrame_deltaContent (b : ResponseBuffer) :
    (terminalFrame b).deltaContent = none := by
  unfold terminalFrame
  split
  · split <;> rfl
  · rfl

theorem terminalFrame_stepData (b : ResponseBuffer) :
    (terminalFrame b).stepData = none := by
  unfold terminalFrame
  split
  · split <;> rfl
  · rfl

theorem passFrames_filterMap_delta (p : RelayPass) (cs ss : Nat) :
    (passFrames p cs ss).filterMap SSEEvent.deltaContent
      = p.chunkView.chunks.drop cs := by
  unfold passFrames
  rw [List.filterMap_append, filterMap_deltaContent_deltas, filterMap_deltaContent_steps,
    List.append_nil]

theorem passFrames_filterMap_step (p : RelayPass) (cs ss : Nat) :
    (passFrames p cs ss).filterMap SSEEvent.stepData = p.stepView.steps.drop ss := by
  unfold passFrames
  rw [List.filterMap_append, filterMap_stepData_deltas, filterMap_stepData_steps,
    List.nil_append]

theorem drop_decompose {α : Type} (l₁ l₂ : List α) (h : l₁ <+: l₂) (n : Nat)
    (hn : n ≤ l₁.length) : l₂.drop n = l₁.drop n ++ l₂.drop l₁.length := by
  obtain ⟨t, rfl⟩ := h
  rw [List.drop_append_of_le_length hn]
  congr 1
  simp

theorem relayRun_cons_running (p : RelayPass) (rest : List RelayPass) (cs ss : Nat)
    (hp : p.statusView.status = ResponseStatus.running) :
    relayRun (p :: rest) cs ss
      = passFrames p cs ss
        ++ relayRun rest p.chunkView.chunks.length p.stepView.steps.length := by
  simp [relayRun, hp]

theorem relayRun_cons_terminal (p : RelayPass) (rest : List RelayPass) (cs ss : Nat)
    (hp : p.statusView.status ≠ ResponseStatus.running) :
    relayRun (p :: rest) cs ss = passFrames p cs ss ++ [terminalFrame p.statusView] := by
  simp [relayRun, hp]

theorem legalSchedule_link (p q : RelayPass) (rest : List RelayPass)
    (h : LegalSchedule (p :: q :: rest)) :
    p.chunkView.chunks <+: q.chunkView.chunks
    ∧ p.stepView.steps <+: q.stepView.steps := by
  have hpoq : PassOrdered q := by
    cases rest with
    | nil => exact h.2.2.2.1
    | cons r rest' => exact h.2.2.2.1
  refine ⟨?_, ?_⟩
  · exact (h.1.1.1.trans h.1.2.1).trans h.2.2.1.1
  · exact (h.1.2.2.trans h.2.2.1.2).trans hpoq.1.2

theorem legalSchedule_head_last :
    ∀ (mid : List RelayPass) (p lastp : RelayPass),
      LegalSchedule (p :: (mid ++ [lastp])) →
      p.chunkView.chunks <+: lastp.chunkView.chunks
      ∧ p.stepView.steps <+: lastp.stepView.steps := by
  intro mid
  induction mid with
  | nil =>
      intro p lastp h
      exact legalSchedule_link p lastp [] h
  | cons q mid' ih =>
      intro p lastp h
      have hlink := legalSchedule_link p q (mid' ++ [lastp]) h
      have hrest : LegalSchedule (q :: (mid' ++ [lastp])) := h.2.2.2
      have h2 := ih q lastp hrest
      exact ⟨hlink.1.trans h2.1, hlink.2.trans h2.2⟩

theorem legalSchedule_last :
    ∀ (mid : List RelayPass) (lastp : RelayPass),
      LegalSchedule (mid ++ [lastp]) →
      PassOrdered lastp ∧ lastp.statusView.status ≠ ResponseStatus.running := by
  intro mid
  induction mid with
  | nil =>
      intro lastp h
      exact h
  | cons p mid' ih =>
      intro lastp h
      have hrest : LegalSchedule (mid' ++ [lastp]) := by
        cases mid' with
        | nil => exact h.2.2.2
        | cons r mid'' => exact h.2.2.2
      exact ih lastp hrest

theorem relayRun_one_terminal :
    ∀ (mid : List RelayPass) (lastp : RelayPass) (cs ss : Nat),
      LegalSchedule (mid ++ [lastp]) →
      (relayRun (mid ++ [lastp]) cs ss).countP SSEEvent.isTerminal = 1 := by
  intro mid
  induction mid with
  | nil =>
      intro lastp cs ss h
      rw [List.nil_append, relayRun_cons_terminal lastp [] cs ss h.2, List.countP_append,
        passFrames_no_terminal]
      simp [terminalFrame_isTerminal]
  | cons p mid' ih =>
      intro lastp cs ss h
      have hparts : p.statusView.status = ResponseStatus.running
          ∧ LegalSchedule (mid' ++ [lastp]) := by
        cases mid' with
        | nil => exact ⟨h.2.1, h.2.2.2⟩
        | cons r mid'' => exact ⟨h.2.1, h.2.2.2⟩
      rw [List.cons_append, relayRun_cons_running p (mid' ++ [lastp]) cs ss hparts.1,
        List.countP_append, passFrames_no_terminal, ih lastp _ _ hparts.2]

theorem relayRun_proj :
    ∀ (mid : List RelayPass) (lastp p0 : RelayPass) (cs ss : Nat),
      LegalSchedule (p0 :: (mid ++ [lastp])) →
      cs ≤ p0.chunkView.chunks.length → ss ≤ p0.stepView.steps.length →
      (relayRun (p0 :: (mid ++ [lastp])) cs ss).filterMap SSEEvent.deltaContent
          = lastp.chunkView.chunks.drop cs
      ∧ (relayRun (p0 :: (mid ++ [lastp])) cs ss).filterMap SSEEvent.stepData
          = lastp.stepView.steps.drop ss := by
  intro mid
  induction mid with
  | nil =>
      intro lastp p0 cs ss h hcs hss
      obtain ⟨hpo, hrun, hlink, hlast⟩ := h
      obtain ⟨hpoL, hterm⟩ := hlast
      have hchain_c : p0.chunkView.chunks <+: lastp.chunkView.chunks :=
        (hpo.1.1.trans hpo.2.1).trans hlink.1
      have hchain_s : p0.stepView.steps <+: lastp.stepView.steps :=
        (hpo.2.2.trans hlink.2).trans hpoL.1.2
      rw [List.nil_append, relayRun_cons_running p0 [lastp] cs ss hrun,
        relayRun_cons_terminal lastp [] _ _ hterm]
      constructor
      · rw [List.filterMap_append, List.filterMap_append, passFrames_filterMap_delta,
          passFrames_filterMap_delta]
        simp only [List.filterMap_cons, terminalFrame_deltaContent, List.filterMap_nil,
          List.append_nil]
        exact (drop_decompose _ _ hchain_c cs hcs).symm
      · rw [List.filterMap_append, List.filterMap_append, passFrames_filterMap_step,
          passFrames_filterMap_step]
        simp only [List.filterMap_cons, terminalFrame_stepData, List.filterMap_nil,
          List.append_nil]
        exact (drop_decompose _ _ hchain_s ss hss).symm
  | cons q mid' ih =>
      intro lastp p0 cs ss h hcs hss
      have hrun : p0.statusView.status = ResponseStatus.running := h.2.1
      have hlink := legalSchedule_link p0 q (mid' ++ [lastp]) h
      have hrest : LegalSchedule (q :: (mid' ++ [lastp])) := h.2.2.2
      have hchain := legalSchedule_head_last (q :: mid') p0 lastp h
      have hrec := ih lastp q p0.chunkView.chunks.length p0.stepView.steps.length hrest
        hlink.1.length_le hlink.2.length_le
      rw [List.cons_append, relayRun_cons_running p0 (q :: (mid' ++ [lastp])) cs ss hrun]
      constructor
      · rw [List.filterMap_append, passFrames_filterMap_delta, hrec.1]
        exact (drop_decompose _ _ hchain.1 cs hcs).symm
      · rw [List.filterMap_append, passFrames_filterMap_step, hrec.2]
        exact (drop_decompose _ _ hchain.2 ss hss).symm

theorem relayRun_ends_terminal :
    ∀ (mid : List RelayPass) (lastp : RelayPass) (cs ss : Nat),
      LegalSchedule (mid ++ [lastp]) →
      ∃ evs, relayRun (mid ++ [lastp]) cs ss = evs ++ [terminalFrame lastp.statusView] := by
  intro mid
  induction mid with
  | nil =>
      intro lastp cs ss h
      exact ⟨passFrames lastp cs ss,
        by rw [List.nil_append, relayRun_cons_terminal lastp [] cs ss h.2]⟩
  | cons p mid' ih =>
      intro lastp cs ss h
      have hparts : p.statusView.status = ResponseStatus.running
          ∧ LegalSchedule (mid' ++ [lastp]) := by
        cases mid' with
        | nil => exact ⟨h.2.1, h.2.2.2⟩
        | cons r mid'' => exact ⟨h.2.1, h.2.2.2⟩
      obtain ⟨evs, hevs⟩ := ih lastp p.chunkView.chunks.length p.stepView.steps.length
        hparts.2
      refine ⟨passFrames p cs ss ++ evs, ?_⟩
      rw [List.cons_append, relayRun_cons_running p (mid' ++ [lastp]) cs ss hparts.1,
        hevs, List.append_assoc]

/-- C4: the claim states that a relay attaching at cursor 0 after completion
replays the full sequence of entries followed by the terminal event,
identical to a relay attached from the start.  Counterexample: the generator
suspends at every yield, so in the legal single-pass schedule where the
producer appends the turn's only chunk and calls complete() while the relay
is suspended in the step-drain yield, the status check observes the
completed buffer but the chunk loop is never re-entered: the live relay
emits [step, done] — the chunk is never emitted at all — while the
attach-after-completion replay emits [delta, step, done]. -/
theorem c4_counterexample :
    LegalSchedule [exampleMissPass]
    ∧ relayRun [exampleMissPass] 0 0
        = [SSEEvent.step "st", terminalFrame exampleFinishedBuffer]
    ∧ relayRun [stablePass exampleFinishedBuffer] 0 0
        = [SSEEvent.delta "hi", SSEEvent.step "st", terminalFrame exampleFinishedBuffer]
    ∧ relayRun [exampleMissPass] 0 0 ≠ relayRun [stablePass exampleFinishedBuffer] 0 0 := by
  have h1 : relayRun [exampleMissPass] 0 0
      = [SSEEvent.step "st", terminalFrame exampleFinishedBuffer] := rfl
  have h2 : relayRun [stablePass exampleFinishedBuffer] 0 0
      = [SSEEvent.delta "hi", SSEEvent.step "st", terminalFrame exampleFinishedBuffer] := rfl
  refine ⟨⟨⟨⟨List.prefix_refl _, List.prefix_refl _⟩, ⟨⟨["hi"], rfl⟩, ⟨[], rfl⟩⟩⟩,
    by show exampleFinishedBuffer.status ≠ ResponseStatus.running; decide⟩,
    h1, h2, ?_⟩
  rw [h1, h2]
  simp

/-- C4 (amended): over any legal schedule of a turn that started and reached
a terminal state, a relay emits exactly one terminal event (done or error —
never both, never neither), and its output ends with the terminal frame of
the final status check; the chunks it emits are exactly those its final
chunk drain observed (each exactly once, in order) and likewise for steps —
both prefixes of the final buffer's lists, so nothing is duplicated or
reordered, but entries appended between a drain and the terminal check of
the final pass are never emitted.  A relay attaching at cursor 0 after
completion, over the then-stable buffer, replays all chunks, then all steps,
then the same single terminal frame; a live relay may therefore lack
trailing entries the replay delivers, and interleave the categories
differently. -/
theorem c4_relay_replay (mid : List RelayPass) (lastp : RelayPass)
    (h : LegalSchedule (mid ++ [lastp])) :
    (relayRun (mid ++ [lastp]) 0 0).countP SSEEvent.isTerminal = 1
    ∧ (relayRun (mid ++ [lastp]) 0 0).filterMap SSEEvent.deltaContent
        = lastp.chunkView.chunks
    ∧ (relayRun (mid ++ [lastp]) 0 0).filterMap SSEEvent.stepData
        = lastp.stepView.steps
    ∧ (∃ evs, relayRun (mid ++ [lastp]) 0 0 = evs ++ [terminalFrame lastp.statusView])
    ∧ lastp.chunkView.chunks <+: lastp.statusView.chunks
    ∧ lastp.stepView.steps <+: lastp.statusView.steps
    ∧ relayRun [stablePass lastp.statusView] 0 0
        = lastp.statusView.chunks.map SSEEvent.delta
          ++ lastp.statusView.steps.map SSEEvent.step
          ++ [terminalFrame lastp.statusView] := by
  obtain ⟨hpoL, hterm⟩ := legalSchedule_last mid lastp h
  have hreplay : relayRun [stablePass lastp.statusView] 0 0
      = lastp.statusView.chunks.map SSEEvent.delta
        ++ lastp.statusView.steps.map SSEEvent.step
        ++ [terminalFrame lastp.statusView] := by
    rw [relayRun_cons_terminal (stablePass lastp.statusView) [] 0 0 hterm]
    simp [passFrames, stablePass]
  refine ⟨relayRun_one_terminal mid lastp 0 0 h, ?_, ?_,
    relayRun_ends_terminal mid lastp 0 0 h,
    hpoL.1.1.trans hpoL.2.1, hpoL.2.2, hreplay⟩
  · cases mid with
    | nil =>
        rw [List.nil_append, relayRun_cons_terminal lastp [] 0 0 hterm,
          List.filterMap_append, passFrames_filterMap_delta]
        simp [terminalFrame_deltaContent]
    | cons p0 mid' =>
        have hp := (relayRun_proj mid' lastp p0 0 0 h (Nat.zero_le _) (Nat.zero_le _)).1
        rw [List.cons_append]
        simpa using hp
  · cases mid with
    | nil =>
        rw [List.nil_append, relayRun_cons_terminal lastp [] 0 0 hterm,
          List.filterMap_append, passFrames_filterMap_step]
        simp [terminalFrame_stepData]
    | cons p0 mid' =>
        have hp := (relayRun_proj mid' lastp p0 0 0 h (Nat.zero_le _) (Nat.zero_le _)).2
        rw [List.cons_append]
        simpa using hp

theorem c4_witness :
    (relayRun ([] ++ [exampleMissPass]) 0 0).countP SSEEvent.isTerminal = 1
    ∧ (relayRun ([] ++ [exampleMissPass]) 0 0).filterMap SSEEvent.deltaContent
        = exampleMissPass.chunkView.chunks
    ∧ (relayRun ([] ++ [exampleMissPass]) 0 0).filterMap SSEEvent.stepData
        = exampleMissPass.stepView.steps := by
  have hh : LegalSchedule ([] ++ [exampleMissPass]) :=
    ⟨⟨⟨List.prefix_refl _, List.prefix_refl _⟩, ⟨⟨["hi"], rfl⟩, ⟨[], rfl⟩⟩⟩,
      by show exampleFinishedBuffer.status ≠ ResponseStatus.running; decide⟩
  have hmain := c4_relay_replay [] exampleMissPass hh
  exact ⟨hmain.1, hmain.2.1, hmain.2.2.1⟩

/- Semaphore lemmas for C8. -/

theorem countP_le_countP_of_imp {α : Type} {p q : α → Prop} [DecidablePred p]
    [DecidablePred q] (s : Multiset α) (h : ∀ a ∈ s, p a → q a) :
    Multiset.countP (fun a => p a) s ≤ Multiset.countP (fun a => q a) s := by
  induction s using Multiset.induction_on with
  | empty => simp
  | cons a s ih =>
      have hs : ∀ b ∈ s, p b → q b := fun b hb => h b (Multiset.mem_cons_of_mem hb)
      have hle := ih hs
      rw [Multiset.countP_cons, Multiset.countP_cons]
      by_cases hp : p a
      · have hq := h a (Multiset.mem_cons_self a s) hp
        simp only [hp, hq, if_true]
        omega
      · by_cases hq : q a <;> simp only [hp, hq, if_true, if_false] <;> omega

theorem subStep_preserves_inv {n : Nat} {s s' : SubmitterState} (hstep : SubStep s s')
    (hinv : SubInv n s) : SubInv n s' := by
  have hcount : s.avail + holdsCount s.runs = n := hinv
  cases hstep with
  | submit s =>
      have hnew : holdsCount ({ status := TaskRunStatus.pending, holds := false } ::ₘ s.runs)
          = holdsCount s.runs := by
        unfold holdsCount
        rw [Multiset.countP_cons]
        simp
      show s.avail
          + holdsCount ({ status := TaskRunStatus.pending, holds := false } ::ₘ s.runs) = n
      rw [hnew]
      exact hcount
  | acquire avail rest =>
      have hpend : holdsCount ({ status := TaskRunStatus.pending, holds := false } ::ₘ rest)
          = holdsCount rest := by
        unfold holdsCount
        rw [Multiset.countP_cons]
        simp
      have hrunning : holdsCount ({ status := TaskRunStatus.running, holds := true } ::ₘ rest)
          = holdsCount rest + 1 := by
        unfold holdsCount
        rw [Multiset.countP_cons]
        simp
      show avail + holdsCount ({ status := TaskRunStatus.running, holds := true } ::ₘ rest) = n
      rw [hrunning]
      have hc : avail + 1 + holdsCount rest = n := by
        rw [hpend] at hcount
        exact hcount
      omega
  | crash s r rest hr hh hs =>
      have hheld : holdsCount (r ::ₘ rest) = holdsCount rest + 1 := by
        unfold holdsCount
        rw [Multiset.countP_cons]
        simp [hh]
      have hdropped : holdsCount ({ r with holds := false } ::ₘ rest) = holdsCount rest := by
        unfold holdsCount
        rw [Multiset.countP_cons]
        simp
      show s.avail + 1 + holdsCount ({ r with holds := false } ::ₘ rest) = n
      rw [hdropped]
      rw [hr, hheld] at hcount
      omega
  | finish s r t rest hr ht =>
      have hsame : holdsCount ({ r with status := t } ::ₘ rest) = holdsCount (r ::ₘ rest) := by
        unfold holdsCount
        rw [Multiset.countP_cons, Multiset.countP_cons]
      show s.avail + holdsCount ({ r with status := t } ::ₘ rest) = n
      rw [hsame, ← hr]
      exact hcount
  | release s r rest hr hh ht =>
      have hheld : holdsCount (r ::ₘ rest) = holdsCount rest + 1 := by
        unfold holdsCount
        rw [Multiset.countP_cons]
        simp [hh]
      have hdropped : holdsCount ({ r with holds := false } ::ₘ rest) = holdsCount rest := by
        unfold holdsCount
        rw [Multiset.countP_cons]
        simp
      show s.avail + 1 + holdsCount ({ r with holds := false } ::ₘ rest) = n
      rw [hdropped]
      rw [hr, hheld] at hcount
      omega

/-- C8: the claim states that the submitter never has more than N
submissions simultaneously in RUNNING status.  Counterexample: with limit
N = 1, the reachable trace submit, acquire, crash (an exception between the
RUNNING assignment at line 75 and the try at line 96 of _execute_run escapes
the with-block, releasing the slot while the record stays RUNNING), submit,
acquire ends in a state with TWO records in RUNNING status at once. -/
theorem c8_counterexample :
    SubReachable 1 exampleOverrunState
    ∧ runningCount exampleOverrunState.runs = 2
    ∧ ¬ (runningCount exampleOverrunState.runs ≤ 1) := by
  refine ⟨?_, by decide, by decide⟩
  have h01 : SubStep (SubmitterState.init 1) overrunS1 :=
    SubStep.submit (SubmitterState.init 1)
  have h12 : SubStep overrunS1 overrunS2 := SubStep.acquire 0 0
  have h23 : SubStep overrunS2 overrunS3 :=
    SubStep.crash overrunS2 runningHolding 0 rfl rfl rfl
  have h34 : SubStep overrunS3 overrunS4 := SubStep.submit overrunS3
  have h45 : SubStep overrunS4 exampleOverrunState :=
    SubStep.acquire 0 (runningCrashed ::ₘ 0)
  exact ((((Relation.ReflTransGen.refl.tail h01).tail h12).tail h23).tail h34).tail h45

/-- C8 (amended): submit records a PENDING submission immediately, and a
submission becomes RUNNING only after acquiring one of the N semaphore
slots, queuing while all N are busy; in every reachable state available
plus held slots equal N, so at most N submissions are RUNNING while inside
the semaphore block.  The bound does not extend to all RUNNING records: the
RUNNING assignment and the awaited session creation precede the try in
_execute_run, so an exception there releases the slot leaving the record
permanently RUNNING, and such orphaned records can push the total RUNNING
count past N. -/
theorem c8_holding_bound (n : Nat) (s : SubmitterState) (h : SubReachable n s) :
    s.avail + holdsCount s.runs = n ∧ runningHoldingCount s.runs ≤ n := by
  have hinv : SubInv n s := by
    induction h with
    | refl =>
        show (SubmitterState.init n).avail + holdsCount (SubmitterState.init n).runs = n
        simp [SubmitterState.init, holdsCount]
    | tail hsteps hstep ih => exact subStep_preserves_inv hstep ih
  have hcount : s.avail + holdsCount s.runs = n := hinv
  have h1 : runningHoldingCount s.runs ≤ holdsCount s.runs := by
    unfold runningHoldingCount holdsCount
    exact countP_le_countP_of_imp s.runs (fun r _ hp => hp.2)
  exact ⟨hcount, by omega⟩

theorem c8_witness : runningHoldingCount (SubmitterState.init 3).runs ≤ 3 :=
  (c8_holding_bound 3 (SubmitterState.init 3) Relation.ReflTransGen.refl).2

end Spec2Proof
